import Mathlib

/-!
Verification of the ImproveLLMStructure output-finalization pipeline.

This file gives a shallow embedding, in Lean 4, of the parts of the
repository that the checked claims talk about:

* `output_parser.py` : `_cleanup_common_artifacts`, `extract_json_robust`;
* `validator.py`     : `validate_output`, `validate_json`, `validate_html`,
  `validate_python`;
* `format_transformer.py` : `PlainTextTransformer.transform`,
  `JSONTransformer.transform`, `HTMLTransformer.transform`;
* `error_corrector.py` : `correct_output` and `_heuristic_correction`;
* `config.py`        : `ERROR_CORRECTION_RETRIES`.

Python strings are modelled as Lean `String` (whitespace handling is
modelled over the ASCII whitespace characters; every concrete input in
this development is ASCII).  Python `None` becomes `Option.none`,
Python exceptions become `Except` with the exception message as payload,
and the values produced by `json.loads` become the inductive type `Json`
below.  Standard-library primitives that cannot be embedded
(`json.loads` raising a non-`JSONDecodeError` exception, `BeautifulSoup`,
`compile`) are passed in as explicit function parameters so that theorems
quantify over every possible behavior of those primitives.
-/

/-- Whitespace in the sense of Python `str.strip()`, restricted to ASCII
(space, tab, newline, carriage return, vertical tab, form feed). -/
def isPySpace (c : Char) : Bool :=
  c = ' ' || c = '\t' || c = '\n' || c = '\r' || c = '\x0b' || c = '\x0c'

/-- Python `str.strip()` on the character list. -/
def pyStripList (l : List Char) : List Char :=
  ((l.dropWhile isPySpace).reverse.dropWhile isPySpace).reverse

/-- Python `str.strip()` with no arguments. -/
def pyStrip (s : String) : String :=
  ⟨pyStripList s.data⟩

/-- Values produced by Python's `json.loads`.  A float literal is kept as
the matched source text: no claim under verification compares float
values, only parse success and integer/object/array shapes. -/
inductive Json where
  | null
  | bool (b : Bool)
  | int (n : Int)
  | float (lit : String)
  | str (s : String)
  | arr (elems : List Json)
  | obj (fields : List (String × Json))

/-- Container-kind test mirroring `isinstance(parsed, list)`. -/
def Json.isArr : Json → Bool
  | .arr _ => true
  | _ => false

/-- Container-kind test mirroring `isinstance(parsed, dict)`. -/
def Json.isObj : Json → Bool
  | .obj _ => true
  | _ => false

/-- JSON whitespace as accepted by Python's `json` scanner
(space, tab, newline, carriage return). -/
def isJsonSpace (c : Char) : Bool :=
  c = ' ' || c = '\t' || c = '\n' || c = '\r'

/-- Skip JSON whitespace. -/
def skipJsonWs (l : List Char) : List Char :=
  l.dropWhile isJsonSpace

/-- Match a literal character sequence, returning the rest on success. -/
def dropLit : List Char → List Char → Option (List Char)
  | [], l => some l
  | _ :: _, [] => none
  | p :: ps, c :: cs => if c = p then dropLit ps cs else none

/-- Value of a decimal digit list (most significant first). -/
def digitsVal (l : List Char) : Nat :=
  l.foldl (fun n c => 10 * n + (c.toNat - '0'.toNat)) 0

/-- Hexadecimal digit test. -/
def isHexDig (c : Char) : Bool :=
  c.isDigit || ('a' ≤ c && c ≤ 'f') || ('A' ≤ c && c ≤ 'F')

/-- Parse the body of a JSON string literal (the opening quote already
consumed), following Python `json`'s strict scanner: raw control
characters are rejected, the short escapes and `\uXXXX` are accepted.
Surrogate pairs are not recombined (no claim exercises them); a code
point that is not a valid scalar value is mapped by `Char.ofNat` to the
null character. -/
def parseJStringAux : List Char → List Char → Option (String × List Char)
  | _, [] => none
  | acc, c :: cs =>
    if c = '"' then some (⟨acc.reverse⟩, cs)
    else if c = '\\' then
      match cs with
      | [] => none
      | e :: cs' =>
        if e = '"' then parseJStringAux ('"' :: acc) cs'
        else if e = '\\' then parseJStringAux ('\\' :: acc) cs'
        else if e = '/' then parseJStringAux ('/' :: acc) cs'
        else if e = 'b' then parseJStringAux ('\x08' :: acc) cs'
        else if e = 'f' then parseJStringAux ('\x0c' :: acc) cs'
        else if e = 'n' then parseJStringAux ('\n' :: acc) cs'
        else if e = 'r' then parseJStringAux ('\r' :: acc) cs'
        else if e = 't' then parseJStringAux ('\t' :: acc) cs'
        else if e = 'u' then
          match cs' with
          | h1 :: h2 :: h3 :: h4 :: rest =>
            if isHexDig h1 && isHexDig h2 && isHexDig h3 && isHexDig h4 then
              let hv : Char → Nat := fun c =>
                if c.isDigit then c.toNat - '0'.toNat
                else if 'a' ≤ c && c ≤ 'f' then c.toNat - 'a'.toNat + 10
                else c.toNat - 'A'.toNat + 10
              let n := ((hv h1 * 16 + hv h2) * 16 + hv h3) * 16 + hv h4
              parseJStringAux (Char.ofNat n :: acc) rest
            else none
          | _ => none
        else none
    else if c.toNat < 0x20 then none
    else parseJStringAux (c :: acc) cs

/-- Parse a JSON number per the scanner regex
`(-?(?:0|[1-9]\d*))(\.\d+)?([eE][-+]?\d+)?`: a malformed fraction or
exponent is simply left unconsumed, as the regex would leave it. -/
def parseJNumber (l : List Char) : Option (Json × List Char) :=
  let (negChars, l1) := match l with
    | '-' :: r => ([ '-' ], r)
    | _ => ([], l)
  match l1 with
  | [] => none
  | c :: r =>
    if c = '0' then finish negChars ['0'] r
    else if c.isDigit then
      let ds := r.takeWhile Char.isDigit
      finish negChars (c :: ds) (r.dropWhile Char.isDigit)
    else none
where
  finish (negChars intDigits : List Char) (rest : List Char) : Option (Json × List Char) :=
    let (fracChars, rest1) := match rest with
      | '.' :: r2 =>
        let ds := r2.takeWhile Char.isDigit
        if ds = [] then (([] : List Char), rest)
        else ('.' :: ds, r2.dropWhile Char.isDigit)
      | _ => ([], rest)
    let (expChars, rest2) := match rest1 with
      | e :: r3 =>
        if e = 'e' || e = 'E' then
          let (signChars, r4) := match r3 with
            | '+' :: r5 => (['+'], r5)
            | '-' :: r5 => (['-'], r5)
            | _ => (([] : List Char), r3)
          let ds := r4.takeWhile Char.isDigit
          if ds = [] then (([] : List Char), rest1)
          else (e :: signChars ++ ds, r4.dropWhile Char.isDigit)
        else ([], rest1)
      | _ => ([], rest1)
    if fracChars = [] && expChars = [] then
      let n : Int := Int.ofNat (digitsVal intDigits)
      some (.int (if negChars = [] then n else -n), rest2)
    else
      some (.float ⟨negChars ++ intDigits ++ fracChars ++ expChars⟩, rest2)

mutual

/-- Parse one JSON value (after skipping leading whitespace), with fuel
bounding recursion depth.  Mirrors Python `json.loads` acceptance,
including the non-standard constants `NaN`, `Infinity`, `-Infinity`. -/
def parseJValue : Nat → List Char → Option (Json × List Char)
  | 0, _ => none
  | fuel + 1, l =>
    match skipJsonWs l with
    | [] => none
    | c :: cs =>
      if c = '\x7b' then parseJMembers fuel (skipJsonWs cs) []
      else if c = '[' then parseJElems fuel (skipJsonWs cs) []
      else if c = '"' then
        match parseJStringAux [] cs with
        | some (s, rest) => some (.str s, rest)
        | none => none
      else if c = 't' then
        (dropLit ['r', 'u', 'e'] cs).map (fun rest => (.bool true, rest))
      else if c = 'f' then
        (dropLit ['a', 'l', 's', 'e'] cs).map (fun rest => (.bool false, rest))
      else if c = 'n' then
        (dropLit ['u', 'l', 'l'] cs).map (fun rest => (.null, rest))
      else if c = 'N' then
        (dropLit ['a', 'N'] cs).map (fun rest => (.float "NaN", rest))
      else if c = 'I' then
        (dropLit ['n', 'f', 'i', 'n', 'i', 't', 'y'] cs).map
          (fun rest => (.float "Infinity", rest))
      else if c = '-' then
        match dropLit ['I', 'n', 'f', 'i', 'n', 'i', 't', 'y'] cs with
        | some rest => some (.float "-Infinity", rest)
        | none => parseJNumber (c :: cs)
      else parseJNumber (c :: cs)

/-- Parse the members of an object, the opening brace and following
whitespace already consumed.  Duplicate keys are kept in parse order
(Python's dict keeps the last value; no claim involves duplicates). -/
def parseJMembers : Nat → List Char → List (String × Json) →
    Option (Json × List Char)
  | 0, _, _ => none
  | _ + 1, [], _ => none
  | fuel + 1, c :: cs, acc =>
    if c = '\x7d' && acc.isEmpty then some (.obj [], cs)
    else if c = '"' then
      match parseJStringAux [] cs with
      | none => none
      | some (k, rest) =>
        match skipJsonWs rest with
        | ':' :: rest2 =>
          match parseJValue fuel rest2 with
          | none => none
          | some (v, rest3) =>
            match skipJsonWs rest3 with
            | ',' :: rest4 => parseJMembers fuel (skipJsonWs rest4) ((k, v) :: acc)
            | '\x7d' :: rest4 => some (.obj ((k, v) :: acc).reverse, rest4)
            | _ => none
        | _ => none
    else none

/-- Parse the elements of an array, the opening bracket and following
whitespace already consumed. -/
def parseJElems : Nat → List Char → List Json → Option (Json × List Char)
  | 0, _, _ => none
  | _ + 1, [], _ => none
  | fuel + 1, l, acc =>
    if l.head? = some ']' && acc.isEmpty then some (.arr [], l.tail)
    else
      match parseJValue fuel l with
      | none => none
      | some (v, rest) =>
        match skipJsonWs rest with
        | ',' :: rest2 => parseJElems fuel rest2 (v :: acc)
        | ']' :: rest2 => some (.arr (v :: acc).reverse, rest2)
        | _ => none

end

/-- Python `json.loads`: parse one value, then require only whitespace to
remain.  The fuel is generous enough for any input of the given length
(each level of nesting consumes at least one character). -/
def pyJsonLoads (s : String) : Option Json :=
  match parseJValue (2 * s.length + 8) s.data with
  | some (v, rest) => if skipJsonWs rest = [] then some v else none
  | none => none

/-- ASCII model of the regex class `\s` (identical to the Python
`str.strip` default set in the ASCII range). -/
def isReSpace (c : Char) : Bool := isPySpace c

/-- ASCII model of the regex class `\w`. -/
def isWordChar (c : Char) : Bool := c.isAlphanum || c = '_'

/-- Case-insensitive character comparison (IGNORECASE matching). -/
def ciEq (a b : Char) : Bool := a.toLower = b.toLower

/-- Case-insensitive literal match, returning the rest on success. -/
def ciDropLit : List Char → List Char → Option (List Char)
  | [], l => some l
  | _ :: _, [] => none
  | p :: ps, c :: cs => if ciEq c p then ciDropLit ps cs else none

/-- One left-to-right, non-overlapping `re.sub(pattern, "", text)` pass:
at each position try the matcher; on a match of length `n` drop those
characters, otherwise keep one character and move on.  Every pattern used
in this file matches at least one character, so the `n = 0` guard is
unreachable.  The fuel is always instantiated with more than the input
length, so the fuel-exhaustion branch is never taken. -/
def reSubAll : Nat → (List Char → Option Nat) → List Char → List Char
  | 0, _, l => l
  | _ + 1, _, [] => []
  | fuel + 1, m, c :: cs =>
    match m (c :: cs) with
    | some (n + 1) => reSubAll fuel m ((c :: cs).drop (n + 1))
    | _ => c :: reSubAll fuel m cs

/-- Matcher for the fence pattern: three backticks, then a greedy
optional word run, then a greedy whitespace run. -/
def matchFence (l : List Char) : Option Nat :=
  match l with
  | c1 :: c2 :: c3 :: rest =>
    if c1 = '`' && c2 = '`' && c3 = '`' then
      let w := (rest.takeWhile isWordChar).length
      let s := ((rest.dropWhile isWordChar).takeWhile isReSpace).length
      some (3 + w + s)
    else none
  | _ => none

/-- Matcher for the literal `str.replace` of three backticks. -/
def matchTicks (l : List Char) : Option Nat :=
  match l with
  | c1 :: c2 :: c3 :: _ =>
    if c1 = '`' && c2 = '`' && c3 = '`' then some 3 else none
  | _ => none

/-- Character list of the envelope key, rendered with escaped braces. -/
def resultKeyChars : List Char :=
  ['\x7b', '"', 'r', 'e', 's', 'u', 'l', 't', '"', ':']

/-- Embedding of the anchored, DOTALL substitution that unwraps a
`"result"` envelope: the input is stripped first; if the whole stripped
text matches the envelope pattern, the substitution leaves only the
capture group, otherwise it leaves the stripped text unchanged.  The
stripped text has no trailing whitespace, so the trailing whitespace run
of the pattern is empty and the closing brace must be the last
character; the greedy leading whitespace run backs off by one character
when the capture group would otherwise be empty. -/
def unwrapResultEnvelope (t : String) : String :=
  let s := pyStripList t.data
  match dropLit resultKeyChars s with
  | none => ⟨s⟩
  | some rest =>
    let k := rest.length - 1
    if rest.getLast? = some '\x7d' && decide (1 ≤ k) then
      let w := (rest.takeWhile isReSpace).length
      ⟨(rest.take k).drop (min w (k - 1))⟩
    else ⟨s⟩

/-- Matcher for the first disclaimer pattern, IGNORECASE, with the
backtracking order of the regex engine: greedy optional comma, a space,
greedy optional `I `, then the alternation `can('?t)?` before
`am\sable\s(to)?`. -/
def matchDisclaimerA (l : List Char) : Option Nat :=
  match ciDropLit "As an AI language model".data l with
  | none => none
  | some rest0 =>
    let base := "As an AI language model".length
    let tryTail : List Char → Option Nat := fun r =>
      match ciDropLit "can".data r with
      | some r' =>
        match r' with
        | '\'' :: t :: _ => if ciEq t 't' then some 5 else some 3
        | t :: _ => if ciEq t 't' then some 4 else some 3
        | [] => some 3
      | none =>
        match ciDropLit "am".data r with
        | none => none
        | some r1 =>
          match r1 with
          | s1 :: r2 =>
            if isReSpace s1 then
              match ciDropLit "able".data r2 with
              | none => none
              | some r3 =>
                match r3 with
                | s2 :: r4 =>
                  if isReSpace s2 then
                    match ciDropLit "to".data r4 with
                    | some _ => some 10
                    | none => some 8
                  else none
                | [] => none
            else none
          | [] => none
    let afterComma : List Char → Nat → Option Nat := fun r commaLen =>
      match r with
      | ' ' :: r1 =>
        let withI :=
          match ciDropLit "I ".data r1 with
          | some r2 => (tryTail r2).map (fun n => base + commaLen + 1 + 2 + n)
          | none => none
        match withI with
        | some n => some n
        | none => (tryTail r1).map (fun n => base + commaLen + 1 + n)
      | _ => none
    match rest0 with
    | ',' :: r1 =>
      match afterComma r1 1 with
      | some n => some n
      | none => afterComma rest0 0
    | _ => afterComma rest0 0

/-- Matcher for the plain case-insensitive literal disclaimers. -/
def matchCiLit (pat : List Char) (l : List Char) : Option Nat :=
  match ciDropLit pat l with
  | some _ => some pat.length
  | none => none

/-- Second disclaimer literal. -/
def disclaimerB : List Char := "I am an AI model".data

/-- Third disclaimer literal (with an apostrophe). -/
def disclaimerC : List Char :=
  ['I', '\'', 'm', ' ', 'j', 'u', 's', 't', ' ', 'a', 'n', ' ',
   'A', 'I', ' ', 'm', 'o', 'd', 'e', 'l']

/-- Embedding of `_cleanup_common_artifacts` from `output_parser.py`:
remove fenced-block markers, remove leftover backtick triples, unwrap a
top-level `"result"` envelope from the stripped text, remove the three
disclaimer patterns case-insensitively, and strip. -/
def cleanup_common_artifacts (text : String) : String :=
  let t1 := reSubAll (text.data.length + 1) matchFence text.data
  let t2 := reSubAll (t1.length + 1) matchTicks t1
  let t3 := (unwrapResultEnvelope ⟨t2⟩).data
  let t4 := reSubAll (t3.length + 1) matchDisclaimerA t3
  let t5 := reSubAll (t4.length + 1) (matchCiLit disclaimerB) t4
  let t6 := reSubAll (t5.length + 1) (matchCiLit disclaimerC) t5
  ⟨pyStripList t6⟩

/-- First pass of `extract_json_robust`: scan for balanced `{...}`
regions.  The Python stack holds only opening braces, so it is modelled
by its depth; `acc` holds the characters of the current candidate region
in reverse.  When a region closes back to depth zero it is parsed; on
parse failure the scan continues exactly as the `continue` does. -/
def braceScan : List Char → Nat → List Char → Option Json
  | [], _, _ => none
  | c :: cs, depth, acc =>
    if c = '\x7b' then
      if depth = 0 then braceScan cs 1 ['\x7b']
      else braceScan cs (depth + 1) (c :: acc)
    else if c = '\x7d' then
      match depth with
      | 0 => braceScan cs 0 acc
      | 1 =>
        match pyJsonLoads ⟨(c :: acc).reverse⟩ with
        | some v => some v
        | none => braceScan cs 0 []
      | d + 2 => braceScan cs (d + 1) (c :: acc)
    else if depth = 0 then braceScan cs 0 acc
    else braceScan cs depth (c :: acc)

/-- The candidate regions the brace pass attempts, in scan order. -/
def braceRegions : List Char → Nat → List Char → List String
  | [], _, _ => []
  | c :: cs, depth, acc =>
    if c = '\x7b' then
      if depth = 0 then braceRegions cs 1 ['\x7b']
      else braceRegions cs (depth + 1) (c :: acc)
    else if c = '\x7d' then
      match depth with
      | 0 => braceRegions cs 0 acc
      | 1 => (⟨(c :: acc).reverse⟩ : String) :: braceRegions cs 0 []
      | d + 2 => braceRegions cs (d + 1) (c :: acc)
    else if depth = 0 then braceRegions cs 0 acc
    else braceRegions cs depth (c :: acc)

/-- Second pass of `extract_json_robust`: the same scan for `[...]`. -/
def bracketScan : List Char → Nat → List Char → Option Json
  | [], _, _ => none
  | c :: cs, depth, acc =>
    if c = '[' then
      if depth = 0 then bracketScan cs 1 ['[']
      else bracketScan cs (depth + 1) (c :: acc)
    else if c = ']' then
      match depth with
      | 0 => bracketScan cs 0 acc
      | 1 =>
        match pyJsonLoads ⟨(c :: acc).reverse⟩ with
        | some v => some v
        | none => bracketScan cs 0 []
      | d + 2 => bracketScan cs (d + 1) (c :: acc)
    else if depth = 0 then bracketScan cs 0 acc
    else bracketScan cs depth (c :: acc)

/-- The candidate regions the bracket pass attempts, in scan order. -/
def bracketRegions : List Char → Nat → List Char → List String
  | [], _, _ => []
  | c :: cs, depth, acc =>
    if c = '[' then
      if depth = 0 then bracketRegions cs 1 ['[']
      else bracketRegions cs (depth + 1) (c :: acc)
    else if c = ']' then
      match depth with
      | 0 => bracketRegions cs 0 acc
      | 1 => (⟨(c :: acc).reverse⟩ : String) :: bracketRegions cs 0 []
      | d + 2 => bracketRegions cs (d + 1) (c :: acc)
    else if depth = 0 then bracketRegions cs 0 acc
    else bracketRegions cs depth (c :: acc)

/-- Embedding of `extract_json_robust` from `output_parser.py`: try the
brace pass, then the bracket pass, returning the first region that
parses; `None` when no region parses. -/
def extract_json_robust (text : String) : Option Json :=
  match braceScan text.data 0 [] with
  | some v => some v
  | none => bracketScan text.data 0 []

/-- First successful parse among a list of candidate regions. -/
def firstParse : List String → Option Json
  | [] => none
  | r :: rs =>
    match pyJsonLoads r with
    | some v => some v
    | none => firstParse rs

/-- The `universal_representation` dictionary of `data_structures.py`.
Every key is always present; a `None` value is `Option.none`.  The
`output_structure` slot holds the Structure Analyzer's profile, which no
function under verification ever reads, so its type is a parameter. -/
structure UniversalRepresentation (α : Type) where
  text_content : Option String
  json_fields : Option Json
  code_snippets : Option (List String)
  html_content : Option String
  output_structure : Option α

/-- The prototype value of `universal_representation`: every slot `None`. -/
def universal_representation (α : Type) : UniversalRepresentation α :=
  ⟨none, none, none, none, none⟩

/-- Embedding of `_heuristic_correction` from `error_corrector.py`.  The
Python truthiness test on `text_content` fails for `None` and for the
empty string; `dict.copy()` followed by two key updates becomes a
functional record update. -/
def heuristic_correction (ur : UniversalRepresentation α) (requested_format : String) :
    Option (UniversalRepresentation α) :=
  if requested_format = "json" then
    match ur.text_content with
    | some tc =>
      if tc = "" then none
      else
        let text_content := pyStrip tc
        if text_content.startsWith "\x7b" && text_content.endsWith "\x7d" then
          match pyJsonLoads text_content with
          | some corrected_json =>
            some { ur with json_fields := some corrected_json, text_content := none }
          | none => none
        else none
    | none => none
  else none

/-- Indentation padding used by `json.dumps(..., indent=4)`. -/
def jsonPad (lvl : Nat) : String := ⟨List.replicate (4 * lvl) ' '⟩

/-- String escaping of `json.dumps` with `ensure_ascii=False`: only the
quote, the backslash and control characters are escaped. -/
def escapeJsonString (s : String) : String :=
  "\"" ++ ⟨s.data.foldr (fun c acc =>
    if c = '"' then '\\' :: '"' :: acc
    else if c = '\\' then '\\' :: '\\' :: acc
    else if c = '\n' then '\\' :: 'n' :: acc
    else if c = '\t' then '\\' :: 't' :: acc
    else if c = '\r' then '\\' :: 'r' :: acc
    else if c = '\x08' then '\\' :: 'b' :: acc
    else if c = '\x0c' then '\\' :: 'f' :: acc
    else if c.toNat < 0x20 then
      let ds := Nat.toDigits 16 c.toNat
      let ds := if ds.length = 1 then '0' :: ds else ds
      '\\' :: 'u' :: '0' :: '0' :: (ds ++ acc)
    else c :: acc) []⟩ ++ "\""

mutual

/-- Serialization of `json.dumps(v, indent=4, ensure_ascii=False)`. -/
def jsonDumps (lvl : Nat) : Json → String
  | .null => "null"
  | .bool true => "true"
  | .bool false => "false"
  | .int n => toString n
  | .float lit => lit
  | .str s => escapeJsonString s
  | .arr [] => "[]"
  | .arr (e :: es) =>
    "[\n" ++ jsonPad (lvl + 1) ++ jsonDumps (lvl + 1) e ++
      jsonDumpsElems (lvl + 1) es ++ "\n" ++ jsonPad lvl ++ "]"
  | .obj [] => "\x7b\x7d"
  | .obj ((k, v) :: fs) =>
    "\x7b\n" ++ jsonPad (lvl + 1) ++ escapeJsonString k ++ ": " ++
      jsonDumps (lvl + 1) v ++ jsonDumpsFields (lvl + 1) fs ++ "\n" ++
      jsonPad lvl ++ "\x7d"

/-- Remaining array elements, each preceded by a comma and a newline. -/
def jsonDumpsElems (lvl : Nat) : List Json → String
  | [] => ""
  | e :: es => ",\n" ++ jsonPad lvl ++ jsonDumps lvl e ++ jsonDumpsElems lvl es

/-- Remaining object members, each preceded by a comma and a newline. -/
def jsonDumpsFields (lvl : Nat) : List (String × Json) → String
  | [] => ""
  | (k, v) :: fs =>
    ",\n" ++ jsonPad lvl ++ escapeJsonString k ++ ": " ++ jsonDumps lvl v ++
      jsonDumpsFields lvl fs

end

/-- Embedding of `PlainTextTransformer.transform`.  In the source,
`universal_representation.get("text_content", "")` returns the stored
value because the key is always present, so the `""` default is dead;
calling `.strip()` on a `None` value raises `AttributeError` (modelled
as the exception name). -/
def PlainTextTransformer_transform (ur : UniversalRepresentation α) : Except String String :=
  match ur.text_content with
  | some s => .ok (pyStrip s)
  | none => .error "AttributeError"

/-- Embedding of `JSONTransformer.transform`.  The surrounding
`try/except` catches every exception, and nothing in the embedded body
can raise: the `isinstance` serializability check always succeeds for
values of type `Json`, so its fallback branch is dead, and the function
is total. -/
def JSONTransformer_transform (ur : UniversalRepresentation α) : String :=
  match ur.json_fields with
  | some v => pyStrip (jsonDumps 0 v)
  | none =>
    match ur.text_content with
    | some tc =>
      match pyJsonLoads tc with
      | some v => pyStrip (jsonDumps 0 v)
      | none => pyStrip (jsonDumps 0 (.obj [("result", .str tc)]))
    | none => pyStrip (jsonDumps 0 (.obj [("error", .str "No data to transform to JSON.")]))

/-- A single-quote character, used by Python `repr` of strings. -/
def sqChar : Char := '\''

mutual

/-- Python `str()` of a value parsed from JSON, as interpolated by the
f-strings of `HTMLTransformer.transform`.  For floats the stored literal
stands in for the float repr (no claim renders a float). -/
def pyStr : Json → String
  | .null => "None"
  | .bool true => "True"
  | .bool false => "False"
  | .int n => toString n
  | .float lit => lit
  | .str s => s
  | .arr es => "[" ++ pyReprList es ++ "]"
  | .obj fs => "\x7b" ++ pyReprFields fs ++ "\x7d"

/-- Python `repr()` for values nested inside containers. -/
def pyRepr : Json → String
  | .null => "None"
  | .bool true => "True"
  | .bool false => "False"
  | .int n => toString n
  | .float lit => lit
  | .str s => ⟨sqChar :: (s.data ++ [sqChar])⟩
  | .arr es => "[" ++ pyReprList es ++ "]"
  | .obj fs => "\x7b" ++ pyReprFields fs ++ "\x7d"

/-- Comma-separated reprs of list elements. -/
def pyReprList : List Json → String
  | [] => ""
  | [e] => pyRepr e
  | e :: es => pyRepr e ++ ", " ++ pyReprList es

/-- Comma-separated reprs of dict items. -/
def pyReprFields : List (String × Json) → String
  | [] => ""
  | [(k, v)] => ⟨sqChar :: (k.data ++ [sqChar])⟩ ++ ": " ++ pyRepr v
  | (k, v) :: fs =>
    ⟨sqChar :: (k.data ++ [sqChar])⟩ ++ ": " ++ pyRepr v ++ ", " ++ pyReprFields fs

end

/-- Python `dict` lookup on the parsed member list: the value of the last
occurrence of the key wins, as it would after `dict` construction. -/
def pyDictGet (fields : List (String × Json)) (k : String) : Option Json :=
  (fields.reverse.find? (fun p => p.1 = k)).map Prod.snd

/-- Removal of later duplicates, keeping first occurrences in order. -/
def dedupKeys : List String → List String → List String
  | [], _ => []
  | k :: ks, seen =>
    if seen.contains k then dedupKeys ks seen
    else k :: dedupKeys ks (k :: seen)

/-- Python `dict.keys()` order on the parsed member list: first
occurrences, in insertion order. -/
def pyDictKeys (fields : List (String × Json)) : List String :=
  dedupKeys (fields.map Prod.fst) []

/-- One table row per record, each cell `item.get(key, '')`; iterating a
record that is not a dict raises `AttributeError` at its first cell. -/
def htmlRowsForItems (keys : List String) : List Json → Except String String
  | [] => .ok ""
  | item :: rest =>
    match item with
    | .obj f2 =>
      let cells := keys.foldl (fun acc k =>
        acc ++ "      <td>" ++
          (match pyDictGet f2 k with
           | some v => pyStr v
           | none => "") ++ "</td>\n") ""
      match htmlRowsForItems keys rest with
      | .ok tail => .ok ("    <tr>\n" ++ cells ++ "    </tr>\n" ++ tail)
      | .error e => .error e
    | _ => .error "AttributeError"

/-- Python `type(...)` names for the values of `Json`, rendered as the
f-strings of the fallback branches would show them (modelled without the
surrounding `<class ...>` quoting). -/
def pyTypeName : Json → String
  | .null => "NoneType"
  | .bool _ => "bool"
  | .int _ => "int"
  | .float _ => "float"
  | .str _ => "str"
  | .arr _ => "list"
  | .obj _ => "dict"

/-- Embedding of `HTMLTransformer.transform`: prefer `html_content`, then
a table synthesized from `json_fields` (a list of records becomes a
header row from the first record's keys plus one row per record, a dict
becomes a key/value table), then paragraph-wrapped `text_content`, then
a fixed placeholder.  The `try/except` around the `json_fields` branch
catches the `AttributeError` raised when a record is not a dict.  The
three escaping `str.replace` calls in the text branch replace a
character with itself and are therefore the identity, as in the source;
only the newline replacement has an effect. -/
def HTMLTransformer_transform (ur : UniversalRepresentation α) : String :=
  match ur.html_content with
  | some h => pyStrip h
  | none =>
    match ur.json_fields with
    | some (.arr items) =>
      match items with
      | [] => "<p>No data available.</p>"
      | first :: _ =>
        match first with
        | .obj f1 =>
          let keys := pyDictKeys f1
          let header := keys.foldl (fun acc k => acc ++ "      <th>" ++ k ++ "</th>\n") ""
          match htmlRowsForItems keys items with
          | .ok rows =>
            pyStrip ("<table>\n" ++ "  <thead>\n    <tr>\n" ++ header ++
              "    </tr>\n  </thead>\n" ++ "  <tbody>\n" ++ rows ++
              "  </tbody>\n</table>")
          | .error e => "<p>Error converting JSON to HTML: " ++ e ++ "</p>"
        | _ => "<p>Error converting JSON to HTML: AttributeError</p>"
    | some (.obj fs) =>
      let body := (pyDictKeys fs).foldl (fun acc k =>
        acc ++ "  <tr><td>" ++ k ++ "</td><td>" ++
          (match pyDictGet fs k with
           | some v => pyStr v
           | none => "") ++ "</td></tr>\n") ""
      pyStrip ("<table>\n" ++ body ++ "</table>")
    | some other =>
      "<p>Unsupported JSON data type for HTML conversion: " ++ pyTypeName other ++ "</p>"
    | none =>
      match ur.text_content with
      | some t => pyStrip ("<p>" ++ t.replace "\n" "<br>" ++ "</p>")
      | none => pyStrip "<p>No data available.</p>"

/-- Result of `validate_output` and its helpers: Python's
`Union[bool, Dict]` where the dict always carries `valid: False`, an
`error_type` and a `message`.  The auxiliary report keys
(`line`/`column`/`position`/`fallback_ok`) are not modelled; no claim
mentions them. -/
inductive ValidationResult where
  | valid
  | invalid (error_type : String) (message : String)
deriving DecidableEq

/-- Outcome of the unembedded `json.loads` call inside `validate_json`:
a parsed value, a `JSONDecodeError` (caught there), or any other
exception (uncaught there, handled by `validate_output`). -/
inductive LoadsOutcome where
  | parsed (v : Json)
  | decodeError (message : String)

/-- Outcome of the unembedded `compile(output, "<string>", "exec")`. -/
inductive CompileOutcome where
  | ok
  | syntaxError (message : String)
  | otherError (message : String)

/-- The standard-library and third-party primitives `validator.py` calls
but which cannot be embedded.  `loads` may raise (`Except.error`) with
an exception other than `JSONDecodeError`; `soupFind` models
`BeautifulSoup(output, "html.parser").find()` truthiness and may raise;
`pyCompile` models the byte-compilation of the output. -/
structure ValidatorPrims where
  loads : String → Except String LoadsOutcome
  soupFind : String → Except String Bool
  pyCompile : String → CompileOutcome

/-- Embedding of `validate_json`: parse, then check the optional
expected structure (the check is skipped when the expected-structure
string is empty, per Python truthiness); a `JSONDecodeError` is reported
as a decode-error dict, any other exception escapes this function. -/
def validate_json (loads : String → Except String LoadsOutcome)
    (output : String) (expected_structure : Option String) :
    Except String ValidationResult :=
  match loads output with
  | .error e => .error e
  | .ok (.decodeError m) => .ok (.invalid "JSONDecodeError" m)
  | .ok (.parsed parsed) =>
    match expected_structure with
    | none => .ok .valid
    | some es =>
      if es = "" then .ok .valid
      else if es = "array" && !parsed.isArr then
        .ok (.invalid "JSONStructureError" "Expected a JSON array, but got a JSON object.")
      else if es = "object" && !parsed.isObj then
        .ok (.invalid "JSONStructureError" "Expected a JSON object, but got a JSON array.")
      else .ok .valid

/-- Embedding of `validate_html`: its internal `try/except` catches any
parser exception, so it is total. -/
def validate_html (soupFind : String → Except String Bool) (output : String) :
    ValidationResult :=
  match soupFind output with
  | .ok true => .valid
  | .ok false => .invalid "HTMLStructureError" "No recognizable HTML tags found."
  | .error e => .invalid "HTMLParseError" e

/-- Embedding of `validate_python`: `SyntaxError` and any other
exception are both caught, so it is total. -/
def validate_python (pyCompile : String → CompileOutcome) (output : String) :
    ValidationResult :=
  match pyCompile output with
  | .ok => .valid
  | .syntaxError m => .invalid "PythonSyntaxError" m
  | .otherError m => .invalid "PythonValidationError" m

/-- Embedding of `validate_output` from `validator.py`: dispatch on the
requested format, with the outer `try/except` converting any escaping
exception into an `UnexpectedError` report. -/
def validate_output (prims : ValidatorPrims) (transformed_output : String)
    (requested_format : String) (expected_structure : Option String) :
    ValidationResult :=
  let body : Except String ValidationResult :=
    if requested_format = "json" then
      validate_json prims.loads transformed_output expected_structure
    else if requested_format = "html" then
      .ok (validate_html prims.soupFind transformed_output)
    else if requested_format = "python" then
      .ok (validate_python prims.pyCompile transformed_output)
    else if requested_format = "plaintext" then
      .ok .valid
    else
      .ok (.invalid "UnknownFormat"
        ("Unknown format for validation: " ++ requested_format))
  match body with
  | .ok r => r
  | .error e => .invalid "UnexpectedError" e

/-- The pure instantiation of the `json.loads` primitive by the parser
of this file: it never raises, and the decode-error message of CPython
is not reproduced (no claim reads it). -/
def loadsPure : String → Except String LoadsOutcome := fun s =>
  .ok (match pyJsonLoads s with
       | some v => .parsed v
       | none => .decodeError "Expecting value")

/-- Occurrence of a character sequence inside another. -/
def subOccurs (needle : List Char) : List Char → Bool
  | [] => needle.isEmpty
  | c :: cs => needle.isPrefixOf (c :: cs) || subOccurs needle cs

/-- Substring containment, `needle in hay` on Python strings. -/
def strContains (hay needle : String) : Bool :=
  subOccurs needle.data hay.data

/-- The retry budget from `config.py`. -/
def ERROR_CORRECTION_RETRIES : Nat := 4

/-- The `context` dictionary slots that `correct_output` reads: a key
modelled as absent when the option is `none`. -/
structure RequestContext where
  prompt_text : Option String
  output_intent : Option String

/-- Embedding of `_construct_json_structure_prompt`. -/
def construct_json_structure_prompt (validation_result : ValidationResult)
    (raw_llm_response : String) (context : RequestContext) : String :=
  match validation_result with
  | .invalid _ message =>
    if strContains message "Expected a JSON array" then
      "The previous response was intended to be a JSON array, but it was a JSON object. " ++
      "Please provide the response as a valid JSON *array*, according to the original request. " ++
      "Original request: " ++ context.prompt_text.getD "" ++ " " ++
      "Previous response: " ++ raw_llm_response
    else if strContains message "Expected a JSON object" then
      "The previous response was intended to be a JSON object, but it was a JSON array. " ++
      "Please provide the response as a valid JSON *object*, according to the original request. " ++
      "Original request: " ++ context.prompt_text.getD "" ++ " " ++
      "Previous response: " ++ raw_llm_response
    else fallback raw_llm_response context
  | .valid => fallback raw_llm_response context
where
  fallback (raw_llm_response : String) (context : RequestContext) : String :=
    "The previous response was intended to be JSON, but its structure was incorrect (array vs. object). " ++
    "Please provide valid JSON with the correct structure, based on the original request. " ++
    "Original request: " ++ context.prompt_text.getD "" ++ " " ++
    "Previous response: " ++ raw_llm_response

/-- Embedding of `_construct_json_correction_prompt`.  The report keys
`line` and `column` are not modelled, so their f-string interpolations
are rendered as the Python `None` they would hold when absent. -/
def construct_json_correction_prompt (validation_result : ValidationResult)
    (raw_llm_response : String) : String :=
  match validation_result with
  | .invalid error_type message =>
    if error_type = "JSONDecodeError" then
      "The previous response was intended to be JSON, but it contains a syntax error: " ++
      message ++ " (line None, column None). " ++
      "Please provide valid JSON.  Do not include any surrounding text or explanations. Return ONLY the JSON data. " ++
      "Previous response: " ++ raw_llm_response
    else fallback raw_llm_response
  | .valid => fallback raw_llm_response
where
  fallback (raw_llm_response : String) : String :=
    "The previous response was intended to be JSON, but it is invalid. " ++
    "Please provide valid JSON. Do not include any surrounding text or explanations. Return ONLY the JSON data. " ++
    "Previous response: " ++ raw_llm_response

/-- Embedding of `_construct_html_correction_prompt`. -/
def construct_html_correction_prompt (validation_result : ValidationResult)
    (raw_llm_response : String) : String :=
  match validation_result with
  | .invalid error_type message =>
    if error_type = "HTMLStructureError" then
      "The previous response was intended to be HTML, but its structure is invalid: " ++
      message ++ ". " ++
      "Please provide valid HTML, paying close attention to proper tag nesting and closing tags. " ++
      "Previous response: " ++ raw_llm_response
    else fallback raw_llm_response
  | .valid => fallback raw_llm_response
where
  fallback (raw_llm_response : String) : String :=
    "The previous response was intended to be HTML, but it is invalid. " ++
    "Please provide valid HTML. " ++
    "Previous response: " ++ raw_llm_response

/-- Embedding of `_construct_python_correction_prompt`; the unmodelled
`line`/`offset` report keys are rendered as `None`. -/
def construct_python_correction_prompt (validation_result : ValidationResult)
    (raw_llm_response : String) : String :=
  match validation_result with
  | .invalid error_type message =>
    if error_type = "PythonSyntaxError" then
      "The previous response was intended to be Python code, but it contains a syntax error: " ++
      message ++ " (line None, offset None). " ++
      "Please provide valid Python code. " ++
      "Previous response: " ++ raw_llm_response
    else fallback raw_llm_response
  | .valid => fallback raw_llm_response
where
  fallback (raw_llm_response : String) : String :=
    "The previous response was intended to be Python code, but it is invalid. " ++
    "Please provide valid Python code. " ++
    "Previous response: " ++ raw_llm_response

/-- Embedding of `_construct_format_correction_prompt`.  The
`last_error_message` parameter is only the `.get` default for the
`message` key in the source; the modelled invalid report always carries
a message, so the parameter is never read. -/
def construct_format_correction_prompt (raw_llm_response requested_format
    _last_error_message : String) (validation_result : ValidationResult) : String :=
  let error_detail :=
    match validation_result with
    | .invalid error_type message =>
      " The previous response had a " ++ error_type ++ ": " ++ message ++ "."
    | .valid =>
      " The previous response was invalid for the " ++ requested_format ++ " format."
  "The previous response was supposed to be in " ++ requested_format ++
  " format, but it was invalid." ++ error_detail ++ " " ++
  "Please reformat your previous response to be valid " ++ requested_format ++ ". " ++
  "Ensure the response is ONLY in " ++ requested_format ++
  " without any extra text or explanations. " ++
  "Previous response: " ++ raw_llm_response

/-- Prompt selection of one loop iteration of `correct_output`: the
format-specific template when the error kind has one, the generic
reformat template otherwise, plus the code-only suffix. -/
def chooseCorrectionPrompt (requested_format raw_llm_response : String)
    (context : RequestContext) (last_error : String)
    (validation_result : ValidationResult) : String :=
  let specific : Option String :=
    match validation_result with
    | .invalid error_type _ =>
      if requested_format = "json" then
        if error_type = "JSONDecodeError" then
          some (construct_json_correction_prompt validation_result raw_llm_response)
        else if error_type = "JSONStructureError" then
          some (construct_json_structure_prompt validation_result raw_llm_response context)
        else none
      else if requested_format = "html" then
        if error_type = "HTMLStructureError" || error_type = "HTMLParseError" then
          some (construct_html_correction_prompt validation_result raw_llm_response)
        else none
      else if requested_format = "python" then
        if error_type = "PythonSyntaxError" || error_type = "PythonValidationError" then
          some (construct_python_correction_prompt validation_result raw_llm_response)
        else none
      else none
    | .valid => none
  let prompt := specific.getD
    (construct_format_correction_prompt raw_llm_response requested_format
      last_error validation_result)
  if context.output_intent = some "code_only" then
    prompt ++ " Return only the code, with no additional text"
  else prompt

/-- The `expected_structure` computed once at the top of
`correct_output` from the requested format and the instruction text. -/
def expectedStructureFor (requested_format : String) (context : RequestContext) :
    Option String :=
  if requested_format = "json" && context.prompt_text.isSome then
    let p := (context.prompt_text.getD "").toLower
    if strContains p "array" then some "array"
    else if strContains p "object" then some "object"
    else none
  else none

/-- The per-attempt pipeline functions `correct_output` calls.  They
stand for `parse_llm_output(resp, fmt, ctx)`, the transform of
`get_transformer(fmt)` applied with `ctx`, and
`validate_output(out, fmt, expected)`; modelling them as total
functions restricts attention to runs in which each stage returns
normally.  Theorems about the Corrector quantify over every such
pipeline. -/
structure CorrectionPipeline (α : Type) where
  parseFn : String → UniversalRepresentation α
  transformFn : UniversalRepresentation α → String
  validateFn : String → Option String → ValidationResult

/-- The iterative loop of `correct_output`.  `responses` gives the model
client's reply to the `k`-th call (`k` counted from zero); the returned
list holds the prompts sent, in order, so its length is the number of
model-client calls the loop performed. -/
def correctLoop (p : CorrectionPipeline α) (responses : Nat → String)
    (requested_format raw_llm_response : String) (context : RequestContext)
    (expected_structure : Option String) :
    Nat → String → String → ValidationResult → List String → String × List String
  | 0, transformed_output, _, _, sent => (transformed_output, sent.reverse)
  | left + 1, transformed_output, last_error, validation_result, sent =>
    let prompt := chooseCorrectionPrompt requested_format raw_llm_response
      context last_error validation_result
    let corrected_response := responses sent.length
    if corrected_response.startsWith "Error:" then
      (transformed_output, (prompt :: sent).reverse)
    else
      let rep := p.parseFn corrected_response
      let out := p.transformFn rep
      match p.validateFn out expected_structure with
      | .valid => (out, (prompt :: sent).reverse)
      | .invalid et m =>
        correctLoop p responses requested_format raw_llm_response context
          expected_structure left out m (.invalid et m) (prompt :: sent)

/-- Embedding of `correct_output` from `error_corrector.py`: the
heuristic stage (render and validate the heuristically fixed
representation, returning it on success), then the iterative loop with
the budget `ERROR_CORRECTION_RETRIES`.  Returns the final text and the
list of prompts sent to the model client. -/
def correct_output (p : CorrectionPipeline α) (responses : Nat → String)
    (ur : UniversalRepresentation α) (requested_format raw_llm_response : String)
    (context : RequestContext) (validation_result : ValidationResult) :
    String × List String :=
  let afterHeuristic : Option (String × ValidationResult) :=
    match heuristic_correction ur requested_format with
    | some rep' =>
      let out := p.transformFn rep'
      match p.validateFn out none with
      | .valid => none
      | .invalid et m => some (out, .invalid et m)
    | none => some ("", validation_result)
  match heuristic_correction ur requested_format, afterHeuristic with
  | some rep', none => (p.transformFn rep', [])
  | _, some (transformed_output, vr) =>
    let last_error :=
      match vr with
      | .invalid _ m => m
      | .valid => "Initial Validation Failed"
    let expected_structure := expectedStructureFor requested_format context
    correctLoop p responses requested_format raw_llm_response context
      expected_structure ERROR_CORRECTION_RETRIES transformed_output
      last_error vr []
  | none, none => ("", [])

/-- A concrete, pure instantiation of the validator primitives, used to
run the embedded validator on concrete inputs. -/
def primsPure : ValidatorPrims :=
  ⟨loadsPure, fun _ => .ok true, fun _ => .ok⟩

/-- Decidable check that a matcher finds no occurrence anywhere in the
list (position `l.length` covers every longer drop, which is `[]`). -/
def noMatchAnywhere (m : List Char → Option Nat) (l : List Char) : Bool :=
  (List.range (l.length + 1)).all (fun i => (m (l.drop i)).isNone)

/-- Restatement of claim C10's description of the heuristic fix, written
from the spec's words for comparison with `heuristic_correction`: the
fix applies exactly when the requested format is `json` and the trimmed
`text_content` starts with an opening brace, ends with a closing brace
and parses as JSON; it then returns a new representation with
`json_fields` set to the parsed value, `text_content` cleared and every
other field unchanged; in every other case it returns nothing.  (An
empty `text_content`, which the source rejects by truthiness, cannot
start with a brace, so the two descriptions can agree.) -/
def heuristicCorrectionSpec (ur : UniversalRepresentation α)
    (requested_format : String) : Option (UniversalRepresentation α) :=
  match ur.text_content with
  | none => none
  | some s =>
    if requested_format = "json" && (pyStrip s).startsWith "\x7b" &&
        (pyStrip s).endsWith "\x7d" then
      match pyJsonLoads (pyStrip s) with
      | some v => some { ur with json_fields := some v, text_content := none }
      | none => none
    else none

/-- The representation of claim C9: two uniform records. -/
def repTwoRecords : UniversalRepresentation Unit :=
  { universal_representation Unit with
    json_fields := some (.arr [.obj [("a", .int 1)], .obj [("a", .int 2)]]) }

/-- A variant of claim C9's representation in which the second record
misses the header key. -/
def repMissingKey : UniversalRepresentation Unit :=
  { universal_representation Unit with
    json_fields := some (.arr [.obj [("a", .int 1)], .obj [("b", .int 2)]]) }

/-- Success test on an `Except` value. -/
def exceptIsOk : Except String String → Bool
  | .ok _ => true
  | .error _ => false

/-- A degenerate pipeline whose validator always rejects, used to
witness the Corrector theorem on concrete inputs. -/
def stubPipeline : CorrectionPipeline Unit :=
  ⟨fun _ => universal_representation Unit, fun _ => "OUT",
   fun _ _ => .invalid "X" "m"⟩

/-- A constant model-client response sequence for the same witness. -/
def stubResponses : Nat → String := fun _ => "r"

/-- Claim C10: the Corrector's heuristic fix applies exactly when the
requested format is `json` and the trimmed `text_content` is a
brace-delimited text that parses as JSON, in which case it returns a new
representation with `json_fields` set to the parsed value,
`text_content` cleared and every other field unchanged; in every other
case (other format, absent or empty text, wrong shape, parse failure) it
returns nothing.  Stated as equality between the embedded source
function and the spec-shaped description. -/
theorem heuristic_correction_matches_spec (α : Type)
    (ur : UniversalRepresentation α) (fmt : String) :
    heuristic_correction ur fmt = heuristicCorrectionSpec ur fmt := by
  unfold heuristic_correction heuristicCorrectionSpec
  by_cases hf : fmt = "json" <;> cases htc : ur.text_content <;> simp [hf]
  rename_i s
  by_cases hs : s = ""
  · subst hs
    have h1 : (pyStrip "").startsWith "\x7b" = false := rfl
    simp [h1]
  · simp [hs]

/-- Claim C4: totality of the transformers on an all-`None`
representation.  The plaintext transformer raises `AttributeError`
exactly when `text_content` is `None` — in particular on the prototype
representation — while the JSON transformer is total and renders the
error document there; this contradicts the claim that every transformer
returns a string and never raises. -/
theorem plaintext_transform_partial_json_transform_total :
    PlainTextTransformer_transform (universal_representation Unit) =
      .error "AttributeError" ∧
    (∀ (α : Type) (ur : UniversalRepresentation α),
      exceptIsOk (PlainTextTransformer_transform ur) = ur.text_content.isSome) ∧
    JSONTransformer_transform (universal_representation Unit) =
      "\x7b\n    \"error\": \"No data to transform to JSON.\"\n\x7d" := by
  refine ⟨rfl, ?_, by decide⟩
  intro α ur
  cases h : ur.text_content <;> simp [PlainTextTransformer_transform, h, exceptIsOk]

/-- Claim C5: composing the plaintext renderer with the validator.
Whenever the renderer returns a string at all, validating that string as
plaintext yields `Valid` for every behavior of the validator
primitives; but on the all-`None` prototype representation the renderer
returns no string (it raises), so the composition is not total. -/
theorem plaintext_render_validate_composition :
    (¬ ∃ s, PlainTextTransformer_transform (universal_representation Unit) = .ok s) ∧
    (∀ (prims : ValidatorPrims) (α : Type) (ur : UniversalRepresentation α)
      (s : String), PlainTextTransformer_transform ur = .ok s →
      validate_output prims s "plaintext" none = .valid) := by
  constructor
  · rintro ⟨s, hs⟩
    simp [PlainTextTransformer_transform, universal_representation] at hs
  · intro prims α ur s _h
    rfl

/-- Witness for claim C5's theorem at a concrete representation. -/
theorem plaintext_render_validate_composition_witness :
    validate_output primsPure "hi" "plaintext" none = .valid :=
  plaintext_render_validate_composition.2 primsPure Unit
    ⟨some " hi ", none, none, none, none⟩ "hi" rfl

/-- Claim C7: `validate_output` is total — it returns `True` or an
invalid report for every output, format and expected structure and
every behavior of the unembedded primitives; an unrecognized format
yields an `UnknownFormat` report, and an exception escaping a
format-specific check (here: a non-`JSONDecodeError` exception from
`json.loads`) is caught by the outer handler and reported as
`UnexpectedError`. -/
theorem validate_output_total_and_classified (prims : ValidatorPrims)
    (output fmt : String) (es : Option String) :
    (validate_output prims output fmt es = .valid ∨
      ∃ et m, validate_output prims output fmt es = .invalid et m) ∧
    (fmt ≠ "json" → fmt ≠ "html" → fmt ≠ "python" → fmt ≠ "plaintext" →
      validate_output prims output fmt es =
        .invalid "UnknownFormat" ("Unknown format for validation: " ++ fmt)) ∧
    (∀ e, fmt = "json" → prims.loads output = .error e →
      validate_output prims output fmt es = .invalid "UnexpectedError" e) := by
  refine ⟨?_, ?_, ?_⟩
  · cases h : validate_output prims output fmt es with
    | valid => exact .inl rfl
    | invalid et m => exact .inr ⟨et, m, rfl⟩
  · intro h1 h2 h3 h4
    simp [validate_output, h1, h2, h3, h4]
  · intro e hf hl
    subst hf
    simp [validate_output, validate_json, hl]

/-- Witness for claim C7's theorem: an unrecognized format name. -/
theorem validate_output_total_and_classified_witness :
    validate_output primsPure "x" "xml" none =
      .invalid "UnknownFormat" "Unknown format for validation: xml" :=
  (validate_output_total_and_classified primsPure "x" "xml" none).2.1
    (by decide) (by decide) (by decide) (by decide)

/-- Claim C8: validating a JSON object against an expected `array`
container returns the structure-mismatch report naming both kinds, and
in general a parse success whose container kind disagrees with the
expected structure yields `JSONStructureError` rather than `True`. -/
theorem validate_json_structure_mismatch :
    validate_output primsPure "\x7b\"a\":1\x7d" "json" (some "array") =
      .invalid "JSONStructureError" "Expected a JSON array, but got a JSON object." ∧
    (∀ out v, pyJsonLoads out = some v → v.isArr = false →
      validate_json loadsPure out (some "array") =
        .ok (.invalid "JSONStructureError"
          "Expected a JSON array, but got a JSON object.")) ∧
    (∀ out v, pyJsonLoads out = some v → v.isObj = false →
      validate_json loadsPure out (some "object") =
        .ok (.invalid "JSONStructureError"
          "Expected a JSON object, but got a JSON array.")) := by
  refine ⟨by decide, ?_, ?_⟩
  · intro out v h hv
    simp [validate_json, loadsPure, h, hv]
  · intro out v h hv
    simp [validate_json, loadsPure, h, hv]

/-- Witness for claim C8's theorem at the concrete object text. -/
theorem validate_json_structure_mismatch_witness :
    validate_json loadsPure "\x7b\"a\":1\x7d" (some "array") =
      .ok (.invalid "JSONStructureError"
        "Expected a JSON array, but got a JSON object.") :=
  validate_json_structure_mismatch.2.1 "\x7b\"a\":1\x7d"
    (.obj [("a", .int 1)]) rfl rfl

set_option maxRecDepth 8000 in
/-- Claim C9: the markup renderer turns `[{"a":1},{"a":2}]` into a table
with exactly one header cell `a` and two data rows `1` and `2`, and a
key missing from a later record renders as an empty cell. -/
theorem html_transform_table_rendering :
    HTMLTransformer_transform repTwoRecords =
      "<table>\n  <thead>\n    <tr>\n      <th>a</th>\n    </tr>\n  </thead>\n" ++
        "  <tbody>\n    <tr>\n      <td>1</td>\n    </tr>\n    <tr>\n" ++
        "      <td>2</td>\n    </tr>\n  </tbody>\n</table>" ∧
    HTMLTransformer_transform repMissingKey =
      "<table>\n  <thead>\n    <tr>\n      <th>a</th>\n    </tr>\n  </thead>\n" ++
        "  <tbody>\n    <tr>\n      <td>1</td>\n    </tr>\n    <tr>\n" ++
        "      <td></td>\n    </tr>\n  </tbody>\n</table>" := by
  exact ⟨by decide, by decide⟩

/-- The brace pass returns the first parseable candidate region. -/
theorem braceScan_eq_firstParse (cs : List Char) : ∀ depth acc,
    braceScan cs depth acc = firstParse (braceRegions cs depth acc) := by
  induction cs with
  | nil => intro depth acc; rfl
  | cons c cs ih =>
    intro depth acc
    by_cases h1 : c = '\x7b'
    · by_cases h2 : depth = 0 <;> simp [braceScan, braceRegions, h1, h2, ih]
    · by_cases h2 : c = '\x7d'
      · match depth with
        | 0 => simp [braceScan, braceRegions, h1, h2, ih]
        | 1 =>
          simp only [braceScan, braceRegions, if_neg h1, if_pos h2,
            List.reverse_cons]
          cases hp : pyJsonLoads ⟨acc.reverse ++ [c]⟩ <;>
            simp [firstParse, hp, ih]
        | d + 2 => simp [braceScan, braceRegions, h1, h2, ih]
      · by_cases h3 : depth = 0 <;> simp [braceScan, braceRegions, h1, h2, h3, ih]

/-- The bracket pass returns the first parseable candidate region. -/
theorem bracketScan_eq_firstParse (cs : List Char) : ∀ depth acc,
    bracketScan cs depth acc = firstParse (bracketRegions cs depth acc) := by
  induction cs with
  | nil => intro depth acc; rfl
  | cons c cs ih =>
    intro depth acc
    by_cases h1 : c = '['
    · by_cases h2 : depth = 0 <;> simp [bracketScan, bracketRegions, h1, h2, ih]
    · by_cases h2 : c = ']'
      · match depth with
        | 0 => simp [bracketScan, bracketRegions, h1, h2, ih]
        | 1 =>
          simp only [bracketScan, bracketRegions, if_neg h1, if_pos h2,
            List.reverse_cons]
          cases hp : pyJsonLoads ⟨acc.reverse ++ [c]⟩ <;>
            simp [firstParse, hp, ih]
        | d + 2 => simp [bracketScan, bracketRegions, h1, h2, ih]
      · by_cases h3 : depth = 0 <;> simp [bracketScan, bracketRegions, h1, h2, h3, ih]

/-- The first successful parse is the head of the parseable sublist. -/
theorem firstParse_eq_head_filterMap (l : List String) :
    firstParse l = (l.filterMap pyJsonLoads).head? := by
  induction l with
  | nil => rfl
  | cons r rs ih =>
    cases hp : pyJsonLoads r <;> simp [firstParse, hp, ih, List.filterMap_cons]

set_option maxRecDepth 4000 in
/-- Counterexample to claim C3: the input contains exactly one parseable
brace-delimited region (the nested object; the outer balanced region
does not parse), yet `extract_json_robust` returns `None`, because the
scan only attempts regions that close back to nesting depth zero. -/
theorem extract_json_robust_nested_counterexample :
    pyJsonLoads "\x7b\"a\": 1\x7d" = some (.obj [("a", .int 1)]) ∧
    pyJsonLoads "\x7boops \x7b\"a\": 1\x7d \x7d" = none ∧
    extract_json_robust "\x7boops \x7b\"a\": 1\x7d \x7d" = none :=
  ⟨rfl, rfl, rfl⟩

/-- Claim C3 as amended: for every input in which exactly one of the
top-level balanced `{...}` regions (the regions the left-to-right depth
scan attempts) parses, `extract_json_robust` returns that region's
parsed value, wherever the region sits. -/
theorem extract_json_robust_unique_top_level_region (text : String) (v : Json)
    (h : (braceRegions text.data 0 []).filterMap pyJsonLoads = [v]) :
    extract_json_robust text = some v := by
  have h1 : braceScan text.data 0 [] = some v := by
    rw [braceScan_eq_firstParse, firstParse_eq_head_filterMap, h]; rfl
  simp [extract_json_robust, h1]

set_option maxRecDepth 4000 in
/-- Witness for claim C3's amended theorem at a concrete input. -/
theorem extract_json_robust_unique_top_level_region_witness :
    (braceRegions "x \x7b\"a\":1\x7d y".data 0 []).filterMap pyJsonLoads =
      [Json.obj [("a", Json.int 1)]] ∧
    extract_json_robust "x \x7b\"a\":1\x7d y" = some (Json.obj [("a", Json.int 1)]) :=
  ⟨rfl, extract_json_robust_unique_top_level_region _ _ rfl⟩

set_option maxRecDepth 4000 in
/-- Claim C6: on `noise {"a":1} trailing junk [1,2]` the extractor
returns the parsed object; in general any value found by the brace pass
wins over the bracket pass, the first parseable brace region wins among
brace regions, and when no brace region parses the first parseable
bracket region wins among bracket regions. -/
theorem extract_json_robust_preference :
    extract_json_robust "noise \x7b\"a\":1\x7d trailing junk [1,2]" =
      some (.obj [("a", .int 1)]) ∧
    (∀ (t : String) (v : Json), braceScan t.data 0 [] = some v →
      extract_json_robust t = some v) ∧
    (∀ (t : String) (v : Json) (rest : List Json),
      (braceRegions t.data 0 []).filterMap pyJsonLoads = v :: rest →
      extract_json_robust t = some v) ∧
    (∀ (t : String) (v : Json) (rest : List Json),
      braceScan t.data 0 [] = none →
      (bracketRegions t.data 0 []).filterMap pyJsonLoads = v :: rest →
      extract_json_robust t = some v) := by
  refine ⟨rfl, ?_, ?_, ?_⟩
  · intro t v h
    simp [extract_json_robust, h]
  · intro t v rest h
    have h1 : braceScan t.data 0 [] = some v := by
      rw [braceScan_eq_firstParse, firstParse_eq_head_filterMap, h]; rfl
    simp [extract_json_robust, h1]
  · intro t v rest h0 h
    have h1 : bracketScan t.data 0 [] = some v := by
      rw [bracketScan_eq_firstParse, firstParse_eq_head_filterMap, h]; rfl
    simp [extract_json_robust, h0, h1]

/-- Witness for claim C6's theorem: the bracket fallback at a concrete
input with no brace region. -/
theorem extract_json_robust_preference_witness :
    extract_json_robust "x [1,2] y" = some (Json.arr [Json.int 1, Json.int 2]) :=
  extract_json_robust_preference.2.2.2 "x [1,2] y"
    (Json.arr [Json.int 1, Json.int 2]) [] rfl rfl

/-- Stripping is idempotent. -/
theorem pyStripList_idempotent (l : List Char) :
    pyStripList (pyStripList l) = pyStripList l := by
  have hdef : ∀ m : List Char,
      pyStripList m = List.rdropWhile isPySpace (List.dropWhile isPySpace m) :=
    fun m => rfl
  set p := isPySpace with hp
  set m := List.dropWhile p l with hm
  have hfix : List.dropWhile p m = m := by
    rw [hm]; exact List.dropWhile_idempotent p l
  have hfix2 : List.dropWhile p (List.rdropWhile p m) = List.rdropWhile p m := by
    rcases List.rdropWhile_prefix p m with ⟨t, ht⟩
    cases hr : List.rdropWhile p m with
    | nil => rfl
    | cons a rest =>
      have hpa : p a = false := by
        cases hcase : p a
        · rfl
        · exfalso
          have hm' : List.dropWhile p m = m := hfix
          rw [← ht, hr] at hm'
          rw [List.cons_append, List.dropWhile_cons_of_pos hcase] at hm'
          have hsub : (List.dropWhile p (rest ++ t)).Sublist (rest ++ t) :=
            (List.dropWhile_suffix p).sublist
          have hle := hsub.length_le
          have hlen := congrArg List.length hm'
          simp only [List.length_append, List.length_cons] at hle hlen
          omega
      simp [List.dropWhile_cons, hpa]
  rw [hdef, hdef, hfix2, List.rdropWhile_idempotent]

/-- A substitution pass leaves the text unchanged when the matcher finds
no occurrence at any position. -/
theorem reSubAll_id (m : List Char → Option Nat) :
    ∀ (fuel : Nat) (l : List Char), (∀ i, m (l.drop i) = none) →
    reSubAll fuel m l = l := by
  intro fuel
  induction fuel with
  | zero => intro l _; rfl
  | succ fuel ih =>
    intro l h
    cases l with
    | nil => rfl
    | cons c cs =>
      have h0 : m (c :: cs) = none := h 0
      simp only [reSubAll, h0]
      exact congrArg (c :: ·) (ih cs (fun i => h (i + 1)))

/-- The fence matcher needs a backtick. -/
theorem matchFence_none_of_no_tick (l : List Char) (h : ('`' : Char) ∉ l) :
    matchFence l = none := by
  cases l with
  | nil => rfl
  | cons c1 l1 =>
    cases l1 with
    | nil => rfl
    | cons c2 l2 =>
      cases l2 with
      | nil => rfl
      | cons c3 rest =>
        have hc1 : c1 ≠ '`' := fun hh => h (hh ▸ List.mem_cons_self _ _)
        simp [matchFence, hc1]

/-- The backtick-triple matcher needs a backtick. -/
theorem matchTicks_none_of_no_tick (l : List Char) (h : ('`' : Char) ∉ l) :
    matchTicks l = none := by
  cases l with
  | nil => rfl
  | cons c1 l1 =>
    cases l1 with
    | nil => rfl
    | cons c2 l2 =>
      cases l2 with
      | nil => rfl
      | cons c3 rest =>
        have hc1 : c1 ≠ '`' := fun hh => h (hh ▸ List.mem_cons_self _ _)
        simp [matchTicks, hc1]

/-- Soundness of the decidable no-occurrence check. -/
theorem noMatchAnywhere_sound (m : List Char → Option Nat) (l : List Char)
    (h : noMatchAnywhere m l = true) : ∀ i, m (l.drop i) = none := by
  intro i
  by_cases hi : i ≤ l.length
  · have hx := List.all_eq_true.mp h i (List.mem_range.mpr (by omega))
    simpa using hx
  · have h1 : l.drop i = [] := List.drop_eq_nil_of_le (by omega)
    have hx := List.all_eq_true.mp h l.length (List.mem_range.mpr (by omega))
    rw [List.drop_length] at hx
    rw [h1]
    simpa using hx

/-- One cleanup application on a text each stage of which is inert
reduces to a final strip. -/
theorem cleanup_eq_strip_of_fixed (y : String)
    (h1 : reSubAll (y.data.length + 1) matchFence y.data = y.data)
    (h2 : reSubAll (y.data.length + 1) matchTicks y.data = y.data)
    (h3 : unwrapResultEnvelope y = y)
    (h4 : reSubAll (y.data.length + 1) matchDisclaimerA y.data = y.data)
    (h5 : reSubAll (y.data.length + 1) (matchCiLit disclaimerB) y.data = y.data)
    (h6 : reSubAll (y.data.length + 1) (matchCiLit disclaimerC) y.data = y.data) :
    cleanup_common_artifacts y = ⟨pyStripList y.data⟩ := by
  unfold cleanup_common_artifacts
  simp only []
  rw [h1, h2]
  rw [show (⟨y.data⟩ : String) = y from rfl, h3, h4, h5, h6]

/-- The output of cleanup is already stripped. -/
theorem cleanup_output_stripped (x : String) :
    pyStripList (cleanup_common_artifacts x).data =
      (cleanup_common_artifacts x).data := by
  show pyStripList (pyStripList _) = pyStripList _
  exact pyStripList_idempotent _

/-- Counterexample to claim C2: cleanup is not idempotent.  A nested
`"result"` envelope is unwrapped one layer per application, so a second
application changes the text again. -/
theorem cleanup_not_idempotent :
    cleanup_common_artifacts "\x7b\"result\": \x7b\"result\": 1\x7d\x7d" =
      "\x7b\"result\": 1\x7d" ∧
    cleanup_common_artifacts
        (cleanup_common_artifacts "\x7b\"result\": \x7b\"result\": 1\x7d\x7d") = "1" ∧
    cleanup_common_artifacts
        (cleanup_common_artifacts "\x7b\"result\": \x7b\"result\": 1\x7d\x7d") ≠
      cleanup_common_artifacts "\x7b\"result\": \x7b\"result\": 1\x7d\x7d" :=
  ⟨by decide, by decide, by decide⟩

/-- Claim C2 as amended: cleanup is idempotent on every input whose
cleaned form is inert for the non-strip stages — it contains no
backtick, is not itself a `"result"` envelope, and contains no
disclaimer occurrence.  (The counterexamples are exactly the inputs
whose cleaned form still triggers a stage, such as a nested envelope.) -/
theorem cleanup_idempotent_of_inert (x : String)
    (hb : ('`' : Char) ∉ (cleanup_common_artifacts x).data)
    (henv : unwrapResultEnvelope (cleanup_common_artifacts x) =
      cleanup_common_artifacts x)
    (hA : noMatchAnywhere matchDisclaimerA (cleanup_common_artifacts x).data = true)
    (hB : noMatchAnywhere (matchCiLit disclaimerB)
      (cleanup_common_artifacts x).data = true)
    (hC : noMatchAnywhere (matchCiLit disclaimerC)
      (cleanup_common_artifacts x).data = true) :
    cleanup_common_artifacts (cleanup_common_artifacts x) =
      cleanup_common_artifacts x := by
  set y := cleanup_common_artifacts x with hy
  have hdropmem : ∀ i, ∀ a : Char, a ∈ y.data.drop i → a ∈ y.data :=
    fun i a ha => List.mem_of_mem_drop ha
  have h1 : reSubAll (y.data.length + 1) matchFence y.data = y.data :=
    reSubAll_id _ _ _ (fun i =>
      matchFence_none_of_no_tick _ (fun hm => hb (hdropmem i _ hm)))
  have h2 : reSubAll (y.data.length + 1) matchTicks y.data = y.data :=
    reSubAll_id _ _ _ (fun i =>
      matchTicks_none_of_no_tick _ (fun hm => hb (hdropmem i _ hm)))
  have h4 : reSubAll (y.data.length + 1) matchDisclaimerA y.data = y.data :=
    reSubAll_id _ _ _ (noMatchAnywhere_sound _ _ hA)
  have h5 : reSubAll (y.data.length + 1) (matchCiLit disclaimerB) y.data = y.data :=
    reSubAll_id _ _ _ (noMatchAnywhere_sound _ _ hB)
  have h6 : reSubAll (y.data.length + 1) (matchCiLit disclaimerC) y.data = y.data :=
    reSubAll_id _ _ _ (noMatchAnywhere_sound _ _ hC)
  rw [cleanup_eq_strip_of_fixed y h1 h2 henv h4 h5 h6]
  have hs : pyStripList y.data = y.data := by
    rw [hy]; exact cleanup_output_stripped x
  calc (⟨pyStripList y.data⟩ : String) = ⟨y.data⟩ := by rw [hs]
    _ = y := rfl

/-- Witness for claim C2's amended theorem at a concrete inert input. -/
theorem cleanup_idempotent_of_inert_witness :
    cleanup_common_artifacts (cleanup_common_artifacts "  hello  ") =
      cleanup_common_artifacts "  hello  " :=
  cleanup_idempotent_of_inert "  hello  " (by decide) (by decide) (by decide)
    (by decide) (by decide)


/-- One unfolding step of the iterative loop when the response of the
current call is not a transport error. -/
theorem correctLoop_step {α : Type} (p : CorrectionPipeline α)
    (responses : Nat → String) (fmt raw : String) (ctx : RequestContext)
    (exp : Option String) (left : Nat) (out lastErr : String)
    (vr : ValidationResult) (sent : List String)
    (hne : (responses sent.length).startsWith "Error:" = false) :
    correctLoop p responses fmt raw ctx exp (left + 1) out lastErr vr sent =
      match p.validateFn (p.transformFn (p.parseFn (responses sent.length))) exp with
      | .valid => (p.transformFn (p.parseFn (responses sent.length)),
          (chooseCorrectionPrompt fmt raw ctx lastErr vr :: sent).reverse)
      | .invalid et m =>
        correctLoop p responses fmt raw ctx exp left
          (p.transformFn (p.parseFn (responses sent.length))) m
          (.invalid et m)
          (chooseCorrectionPrompt fmt raw ctx lastErr vr :: sent) := by
  conv_lhs => rw [correctLoop]
  rw [hne]
  rfl
/-- When every response is transport-clean and every re-validation
fails, the loop consumes its whole budget, sends one prompt per
attempt, and ends holding the render of the last response. -/
theorem correctLoop_all_fail {α : Type} (p : CorrectionPipeline α)
    (responses : Nat → String) (fmt raw : String) (ctx : RequestContext)
    (exp : Option String) :
    ∀ (left : Nat) (out lastErr : String) (vr : ValidationResult)
      (sent : List String), 0 < left →
    (∀ k, sent.length ≤ k → k < sent.length + left →
      (responses k).startsWith "Error:" = false ∧
      p.validateFn (p.transformFn (p.parseFn (responses k))) exp ≠ .valid) →
    (correctLoop p responses fmt raw ctx exp left out lastErr vr sent).1 =
      p.transformFn (p.parseFn (responses (sent.length + left - 1))) ∧
    (correctLoop p responses fmt raw ctx exp left out lastErr vr sent).2.length =
      sent.length + left := by
  intro left
  induction left with
  | zero => intro out lastErr vr sent h0; exact absurd h0 (lt_irrefl 0)
  | succ left ih =>
    intro out lastErr vr sent _ h
    obtain ⟨hne, hnv⟩ := h sent.length (le_refl _) (by omega)
    rw [correctLoop_step p responses fmt raw ctx exp left out lastErr vr sent hne]
    cases hv : p.validateFn (p.transformFn (p.parseFn (responses sent.length))) exp with
    | valid => exact absurd hv hnv
    | invalid et m =>
      by_cases hleft : left = 0
      · subst hleft
        have hidx : sent.length + (0 + 1) - 1 = sent.length := by omega
        rw [hidx]
        exact ⟨rfl, by simp [correctLoop]⟩
      · have ih' := ih (p.transformFn (p.parseFn (responses sent.length))) m
          (.invalid et m)
          (chooseCorrectionPrompt fmt raw ctx lastErr vr :: sent)
          (Nat.pos_of_ne_zero hleft)
          (fun k hk1 hk2 =>
            h k (by simp only [List.length_cons] at hk1; omega)
              (by simp only [List.length_cons] at hk2; omega))
        simp only [List.length_cons] at ih'
        refine ⟨?_, ?_⟩
        · rw [ih'.1]
          have hidx : sent.length + 1 + left - 1 = sent.length + (left + 1) - 1 := by
            omega
          rw [hidx]
        · rw [ih'.2]
          omega

/-- Claim C1: a Corrector run in which the heuristic fix does not
validate, no model call returns a transport error, and every
per-attempt re-validation fails makes exactly `ERROR_CORRECTION_RETRIES`
(= 4) model-client calls — the returned prompt list has exactly that
length, so no further call happens — and returns the text rendered from
the last attempt unchanged, for every behavior of the per-attempt
pipeline stages. -/
theorem correct_output_exhausts_budget {α : Type} (p : CorrectionPipeline α)
    (responses : Nat → String) (ur : UniversalRepresentation α)
    (fmt raw : String) (ctx : RequestContext) (vr0 : ValidationResult)
    (hheu : ∀ rep', heuristic_correction ur fmt = some rep' →
      p.validateFn (p.transformFn rep') none ≠ .valid)
    (herr : ∀ k, k < ERROR_CORRECTION_RETRIES →
      (responses k).startsWith "Error:" = false)
    (hfail : ∀ k, k < ERROR_CORRECTION_RETRIES →
      p.validateFn (p.transformFn (p.parseFn (responses k)))
        (expectedStructureFor fmt ctx) ≠ .valid) :
    (correct_output p responses ur fmt raw ctx vr0).2.length =
      ERROR_CORRECTION_RETRIES ∧
    ERROR_CORRECTION_RETRIES = 4 ∧
    (correct_output p responses ur fmt raw ctx vr0).1 =
      p.transformFn (p.parseFn (responses (ERROR_CORRECTION_RETRIES - 1))) := by
  have hcond : ∀ k, (List.nil (α := String)).length ≤ k →
      k < (List.nil (α := String)).length + ERROR_CORRECTION_RETRIES →
      (responses k).startsWith "Error:" = false ∧
      p.validateFn (p.transformFn (p.parseFn (responses k)))
        (expectedStructureFor fmt ctx) ≠ .valid := by
    intro k _ hk2
    simp only [List.length_nil, Nat.zero_add] at hk2
    exact ⟨herr k hk2, hfail k hk2⟩
  cases hh : heuristic_correction ur fmt with
  | none =>
    have hrun : correct_output p responses ur fmt raw ctx vr0 =
        correctLoop p responses fmt raw ctx (expectedStructureFor fmt ctx)
          ERROR_CORRECTION_RETRIES ""
          (match vr0 with
           | .invalid _ m => m
           | .valid => "Initial Validation Failed") vr0 [] := by
      unfold correct_output
      rw [hh]
    rw [hrun]
    have hloop := correctLoop_all_fail p responses fmt raw ctx
      (expectedStructureFor fmt ctx) ERROR_CORRECTION_RETRIES ""
      (match vr0 with
       | .invalid _ m => m
       | .valid => "Initial Validation Failed") vr0 [] (by decide) hcond
    simp only [List.length_nil, Nat.zero_add] at hloop
    exact ⟨hloop.2, rfl, hloop.1⟩
  | some rep' =>
    cases hv : p.validateFn (p.transformFn rep') none with
    | valid => exact absurd hv (hheu rep' hh)
    | invalid et m =>
      have hrun : correct_output p responses ur fmt raw ctx vr0 =
          correctLoop p responses fmt raw ctx (expectedStructureFor fmt ctx)
            ERROR_CORRECTION_RETRIES (p.transformFn rep') m (.invalid et m) [] := by
        unfold correct_output
        rw [hh]
        simp only [hv]
      rw [hrun]
      have hloop := correctLoop_all_fail p responses fmt raw ctx
        (expectedStructureFor fmt ctx) ERROR_CORRECTION_RETRIES
        (p.transformFn rep') m (.invalid et m) [] (by decide) hcond
      simp only [List.length_nil, Nat.zero_add] at hloop
      exact ⟨hloop.2, rfl, hloop.1⟩

set_option maxHeartbeats 1000000 in
/-- Witness for claim C1's theorem on a degenerate concrete pipeline. -/
theorem correct_output_exhausts_budget_witness :
    (correct_output stubPipeline stubResponses (universal_representation Unit)
      "json" "raw" ⟨none, none⟩ (.invalid "E" "m")).2.length =
      ERROR_CORRECTION_RETRIES ∧
    (correct_output stubPipeline stubResponses (universal_representation Unit)
      "json" "raw" ⟨none, none⟩ (.invalid "E" "m")).1 = "OUT" := by
  have h := correct_output_exhausts_budget stubPipeline stubResponses
    (universal_representation Unit) "json" "raw" ⟨none, none⟩
    (.invalid "E" "m")
    (fun rep' hr => Option.noConfusion hr)
    (fun _ _ => rfl)
    (fun _ _ hv => ValidationResult.noConfusion hv)
  exact ⟨h.1, h.2.2.trans rfl⟩
